import Mathlib

/-!
Verification of the AI-Tutor backend against its specification.

The development shallowly embeds the Python sources of the repository:

* `backend/intent_classifier.py` — the rule-table intent classifier
  (`classify_intent`, `_check_patterns`), with `re.search` modelled by an
  arbitrary match oracle `rmatch : String → String → Bool`, since the regex
  engine is an external library; keyword matches (`keyword in text`) are
  modelled exactly as substring containment.
* `backend/core_agent.py` — the routing decision of `process_text_input`.
* `backend/learning_tracker.py` — the learning-progress state machine:
  profile / session records, answer logging, knowledge levels, and the JSON
  files as explicit state.  Python floats are modelled as exact rationals,
  `datetime` values as natural-number timestamps (seconds), `isoformat` /
  `fromisoformat` as the bijective pair `IsoString.ofTime` / `IsoString.time`,
  and Python `dict` (insertion ordered) as an association list.
* `backend/commands/math_commands.py` — the four math command handlers,
  including their scene and explanation templates.

Theorems at the end settle the claims; each claim's theorem carries a doc
comment naming it.
-/

namespace AITutor

/-- Whether the first list is an initial segment of the second. -/
def leadsList : List Char → List Char → Bool
  | [], _ => true
  | _ :: _, [] => false
  | a :: as, b :: bs => a = b && leadsList as bs

/-- Whether the first list occurs contiguously inside the second. -/
def insideList (needle : List Char) : List Char → Bool
  | [] => needle.isEmpty
  | b :: bs => leadsList needle (b :: bs) || insideList needle bs

/-- Python's substring test `needle in haystack` (contiguous substring). -/
def containsSub (needle haystack : String) : Bool :=
  insideList needle.toList haystack.toList

/-- Lookup in an insertion-ordered association list: Python `d[k]` /
`k in d` (first, and only, binding of the key). -/
def lookupKey {α : Type} : List (String × α) → String → Option α
  | [], _ => none
  | (k', v) :: rest, k => if k' = k then some v else lookupKey rest k

/-- Python `d[k] = v` on an insertion-ordered dict: replace the binding in
place when the key exists, append otherwise. -/
def insertKey {α : Type} : List (String × α) → String → α → List (String × α)
  | [], k, v => [(k, v)]
  | (k', v') :: rest, k, v =>
    if k' = k then (k', v) :: rest else (k', v') :: insertKey rest k v

/-! ## Intent classifier (`backend/intent_classifier.py`) -/

/-- `IntentPattern` dataclass. -/
structure IntentPattern where
  pattern : String
  intent : String
  confidence : ℚ
  keywords : List String
deriving Repr, DecidableEq

/-- `IntentClassifier.command_patterns` as built in `__init__`. -/
def command_patterns : List IntentPattern :=
  [ { pattern := "(turn on|start|open|activate|enable).*(camera|cam)",
      intent := "command", confidence := 0.9,
      keywords := ["camera", "turn on", "start", "activate"] },
    { pattern := "(turn off|stop|close|deactivate|disable).*(camera|cam)",
      intent := "command", confidence := 0.9,
      keywords := ["camera", "turn off", "stop", "deactivate"] },
    { pattern := "(take|capture).*(photo|picture|image|snapshot)",
      intent := "command", confidence := 0.8,
      keywords := ["take", "capture", "photo", "picture"] },
    { pattern := "(add|plus|\\+).*(\\d+).*(\\d+)",
      intent := "command", confidence := 0.8,
      keywords := ["add", "plus", "numbers"] },
    { pattern := "(subtract|minus|\\-).*(\\d+).*(\\d+)",
      intent := "command", confidence := 0.8,
      keywords := ["subtract", "minus", "numbers"] },
    { pattern := "(multiply|times|\\*).*(\\d+).*(\\d+)",
      intent := "command", confidence := 0.8,
      keywords := ["multiply", "times", "numbers"] },
    { pattern := "(divide|divided by|\\/).*(\\d+).*(\\d+)",
      intent := "command", confidence := 0.8,
      keywords := ["divide", "numbers"] },
    { pattern := "(clear|clean|erase|reset).*(board|screen|canvas)",
      intent := "command", confidence := 0.9,
      keywords := ["clear", "clean", "board", "screen"] },
    { pattern := "(draw|show me|display).*(apple|apples)",
      intent := "command", confidence := 0.7,
      keywords := ["draw", "show", "apple"] },
    { pattern := "(draw|show me|display).*(circle|circles)",
      intent := "command", confidence := 0.7,
      keywords := ["draw", "show", "circle"] },
    { pattern := "(set|start).*(timer|alarm).*(\\d+).*(minute|second)",
      intent := "command", confidence := 0.8,
      keywords := ["timer", "set", "minute", "second"] },
    { pattern := "(weather|temperature).*in.*([A-Za-z\\s]+)",
      intent := "command", confidence := 0.7,
      keywords := ["weather", "temperature"] } ]

/-- `IntentClassifier.educational_patterns`. -/
def educational_patterns : List IntentPattern :=
  [ { pattern := "(explain|teach|how|why|what|when|where)",
      intent := "educational", confidence := 0.6,
      keywords := ["explain", "teach", "how", "why", "what"] },
    { pattern := "(help me|can you|could you|show me how)",
      intent := "educational", confidence := 0.7,
      keywords := ["help", "show me", "how"] },
    { pattern := "(i don\x27t understand|confused|help)",
      intent := "educational", confidence := 0.8,
      keywords := ["understand", "confused", "help"] },
    { pattern := "(solve|work out|figure out|calculate)",
      intent := "educational", confidence := 0.6,
      keywords := ["solve", "work out", "calculate"] } ]

/-- The running best match of `_check_patterns`. -/
structure BestMatch where
  confidence : ℚ
  pattern : Option String
  keywords : List String
deriving Repr, DecidableEq

/-- One iteration of the loop in `_check_patterns`: regex hit takes the
pattern's confidence, otherwise a positive keyword count scores
`matches / len(keywords) * 0.5`; the best match is replaced only on a
strictly larger confidence. -/
def checkPatternStep (rmatch : String → String → Bool) (text : String)
    (best : BestMatch) (p : IntentPattern) : BestMatch :=
  let confidence : ℚ :=
    if rmatch p.pattern text then p.confidence
    else
      let keyword_matches := (p.keywords.filter (fun kw => containsSub kw text)).length
      if 0 < keyword_matches then
        ((keyword_matches : ℚ) / (p.keywords.length : ℚ)) * 0.5
      else 0
  if best.confidence < confidence then
    { confidence := confidence, pattern := some p.pattern, keywords := p.keywords }
  else best

/-- `IntentClassifier._check_patterns`. -/
def check_patterns (rmatch : String → String → Bool) (text : String)
    (patterns : List IntentPattern) : BestMatch :=
  patterns.foldl (checkPatternStep rmatch text)
    { confidence := 0, pattern := none, keywords := [] }

/-- The dictionary returned by `classify_intent`. -/
structure IntentResult where
  intent : String
  confidence : ℚ
  matched_pattern : Option String
  keywords : List String
  original_text : String
deriving Repr, DecidableEq

/-- `IntentClassifier.classify_intent`: command patterns first (threshold
0.6), then educational patterns (threshold 0.5), else the educational
default at confidence 0.5. -/
def classify_intent (rmatch : String → String → Bool) (text : String) : IntentResult :=
  let text_lower := (text.toLower).trim
  let command_result := check_patterns rmatch text_lower command_patterns
  if 0.6 < command_result.confidence then
    { intent := "command", confidence := command_result.confidence,
      matched_pattern := command_result.pattern, keywords := command_result.keywords,
      original_text := text }
  else
    let educational_result := check_patterns rmatch text_lower educational_patterns
    if 0.5 < educational_result.confidence then
      { intent := "educational", confidence := educational_result.confidence,
        matched_pattern := educational_result.pattern,
        keywords := educational_result.keywords, original_text := text }
    else
      { intent := "educational", confidence := 0.5, matched_pattern := none,
        keywords := [], original_text := text }

/-! ## Routing in `CoreAgent.process_text_input` (`backend/core_agent.py`) -/

/-- The two initial routes an utterance can take in `process_text_input`. -/
inductive Route where
  | command
  | educational
deriving Repr, DecidableEq

/-- The routing decision of `CoreAgent.process_text_input`: the command
executor runs exactly when the classified intent is `"command"` with
confidence strictly above 0.7; every other case goes to
`_handle_educational_query`. -/
def routeOf (r : IntentResult) : Route :=
  if r.intent = "command" ∧ 0.7 < r.confidence then Route.command
  else Route.educational

/-! ## Learning tracker data model (`backend/learning_tracker.py`)

`datetime` values are modelled as natural-number timestamps in seconds;
`datetime.isoformat()` / `datetime.fromisoformat()` are the bijective pair
`IsoString.ofTime` / `IsoString.time`. -/

/-- The ISO-8601 rendering of a timestamp, as stored in the JSON files.
The rendering is a bijection on timestamps. -/
structure IsoString where
  time : Nat
deriving Repr, DecidableEq

/-- `datetime.isoformat()`. -/
def IsoString.ofTime (t : Nat) : IsoString := ⟨t⟩

/-- An entry of a session's `emotion_data` list: an arbitrary JSON object,
opaque to the tracker's logic. -/
abbrev EmotionDatum := List (String × String)

/-- The `performance_metrics` dict of a session (fixed keys). -/
structure PerformanceMetrics where
  questions_asked : Nat
  correct_answers : Nat
  incorrect_answers : Nat
  hints_used : Nat
  topics_explored : Nat
deriving Repr, DecidableEq

/-- An interaction record as built by `log_interaction` (its timestamp is
already an ISO string when created). -/
structure Interaction where
  timestamp : IsoString
  kind : String
  input : String
  response : String
  success : Bool
deriving Repr, DecidableEq

/-- `LearningSession` dataclass. -/
structure LearningSession where
  session_id : String
  start_time : Nat
  end_time : Option Nat
  topics_covered : List String
  interactions : List Interaction
  performance_metrics : PerformanceMetrics
  emotion_data : List EmotionDatum
deriving Repr, DecidableEq

/-- `TopicProgress` dataclass. -/
structure TopicProgress where
  topic_name : String
  knowledge_level : String
  first_encountered : Nat
  last_studied : Nat
  total_time_spent : Nat
  correct_answers : Nat
  incorrect_answers : Nat
  concepts_mastered : List String
  struggling_areas : List String
deriving Repr, DecidableEq

/-- `StudentProfile` dataclass; the `topics` dict is an insertion-ordered
association list. -/
structure StudentProfile where
  student_id : String
  name : Option String
  grade_level : Option String
  learning_style : String
  topics : List (String × TopicProgress)
  total_sessions : Nat
  total_learning_time : Nat
  strengths : List String
  areas_for_improvement : List String
deriving Repr, DecidableEq

/-! ### JSON file images -/

/-- `TopicProgress` as serialised by `_save_student_profile` (datetimes
rendered to ISO strings). -/
structure TopicProgressJson where
  topic_name : String
  knowledge_level : String
  first_encountered : IsoString
  last_studied : IsoString
  total_time_spent : Nat
  correct_answers : Nat
  incorrect_answers : Nat
  concepts_mastered : List String
  struggling_areas : List String
deriving Repr, DecidableEq

/-- `StudentProfile` as stored in `student_profile.json`. -/
structure StudentProfileJson where
  student_id : String
  name : Option String
  grade_level : Option String
  learning_style : String
  topics : List (String × TopicProgressJson)
  total_sessions : Nat
  total_learning_time : Nat
  strengths : List String
  areas_for_improvement : List String
deriving Repr, DecidableEq

/-- A session as appended to `sessions.json` by `_save_session_data`
(datetimes rendered to ISO strings). -/
structure LearningSessionJson where
  session_id : String
  start_time : IsoString
  end_time : Option IsoString
  topics_covered : List String
  interactions : List Interaction
  performance_metrics : PerformanceMetrics
  emotion_data : List EmotionDatum
deriving Repr, DecidableEq

/-- The `current_session` summary `_save_temp_progress` writes into
`temp_progress.json`. -/
structure TempSessionInfo where
  session_id : String
  start_time : IsoString
  topics_covered : List String
  performance : PerformanceMetrics
deriving Repr, DecidableEq

/-- A learning objective record of `temp_progress.json`. -/
structure ObjectiveData where
  topic : String
  objective : String
  difficulty : String
  created_at : IsoString
  completed : Bool
  completed_at : Option IsoString
deriving Repr, DecidableEq

/-- The content of `temp_progress.json`. -/
structure TempProgress where
  current_session : Option TempSessionInfo
  learning_objectives : List ObjectiveData
deriving Repr, DecidableEq

/-- The mutable state of a `LearningTracker`: the two in-memory fields and
the three JSON files of its data directory. -/
structure TrackerState where
  current_session : Option LearningSession
  student_profile : Option StudentProfile
  profile_file : Option StudentProfileJson
  sessions_file : List LearningSessionJson
  temp_file : TempProgress
deriving Repr, DecidableEq

/-! ### Serialisation (`_save_student_profile` / `_load_student_profile`) -/

/-- One topic entry of the profile as serialised by `_save_student_profile`:
`asdict` plus `isoformat` on the two datetime fields. -/
def topicToJson (tp : TopicProgress) : TopicProgressJson :=
  { topic_name := tp.topic_name, knowledge_level := tp.knowledge_level,
    first_encountered := IsoString.ofTime tp.first_encountered,
    last_studied := IsoString.ofTime tp.last_studied,
    total_time_spent := tp.total_time_spent,
    correct_answers := tp.correct_answers,
    incorrect_answers := tp.incorrect_answers,
    concepts_mastered := tp.concepts_mastered,
    struggling_areas := tp.struggling_areas }

/-- Parsing a topic entry back, as `_load_student_profile` does with
`datetime.fromisoformat`. -/
def topicFromJson (tj : TopicProgressJson) : TopicProgress :=
  { topic_name := tj.topic_name, knowledge_level := tj.knowledge_level,
    first_encountered := tj.first_encountered.time,
    last_studied := tj.last_studied.time,
    total_time_spent := tj.total_time_spent,
    correct_answers := tj.correct_answers,
    incorrect_answers := tj.incorrect_answers,
    concepts_mastered := tj.concepts_mastered,
    struggling_areas := tj.struggling_areas }

/-- The whole profile as written to `student_profile.json`:
`asdict(self.student_profile)` with every topic's datetimes rendered. -/
def profileToJson (p : StudentProfile) : StudentProfileJson :=
  { student_id := p.student_id, name := p.name, grade_level := p.grade_level,
    learning_style := p.learning_style,
    topics := p.topics.map (fun e => (e.1, topicToJson e.2)),
    total_sessions := p.total_sessions,
    total_learning_time := p.total_learning_time,
    strengths := p.strengths,
    areas_for_improvement := p.areas_for_improvement }

/-- `_load_student_profile`'s reconstruction of the profile from the file. -/
def profileFromJson (pj : StudentProfileJson) : StudentProfile :=
  { student_id := pj.student_id, name := pj.name, grade_level := pj.grade_level,
    learning_style := pj.learning_style,
    topics := pj.topics.map (fun e => (e.1, topicFromJson e.2)),
    total_sessions := pj.total_sessions,
    total_learning_time := pj.total_learning_time,
    strengths := pj.strengths,
    areas_for_improvement := pj.areas_for_improvement }

/-- A session as appended to `sessions.json`: `asdict` with the start and
end times rendered to ISO strings. -/
def sessionToJson (s : LearningSession) : LearningSessionJson :=
  { session_id := s.session_id,
    start_time := IsoString.ofTime s.start_time,
    end_time := s.end_time.map IsoString.ofTime,
    topics_covered := s.topics_covered,
    interactions := s.interactions,
    performance_metrics := s.performance_metrics,
    emotion_data := s.emotion_data }

/-! ### Tracker operations -/

/-- `LearningTracker.__init__`: fresh in-memory state, then
`_load_student_profile` reads `student_profile.json` when it exists. -/
def initTracker (profileFile : Option StudentProfileJson)
    (sessionsFile : List LearningSessionJson) (tempFile : TempProgress) : TrackerState :=
  { current_session := none,
    student_profile := profileFile.map profileFromJson,
    profile_file := profileFile,
    sessions_file := sessionsFile,
    temp_file := tempFile }

/-- `LearningTracker._save_student_profile`: no-op without a profile, else
the file is overwritten with the serialised in-memory profile. -/
def saveStudentProfile (st : TrackerState) : TrackerState :=
  match st.student_profile with
  | none => st
  | some p => { st with profile_file := some (profileToJson p) }

/-- `LearningTracker._save_session_data`: append the current session to the
loaded `sessions.json` list and keep only the last 50 entries
(`sessions[-50:]`). -/
def saveSessionData (st : TrackerState) : TrackerState :=
  match st.current_session with
  | none => st
  | some s =>
    let sessions := st.sessions_file ++ [sessionToJson s]
    { st with sessions_file := sessions.drop (sessions.length - 50) }

/-- `LearningTracker._save_temp_progress`: re-write `temp_progress.json`,
updating its `current_session` summary when a session is active. -/
def saveTempProgress (st : TrackerState) : TrackerState :=
  match st.current_session with
  | none => st
  | some s =>
    let info : TempSessionInfo :=
      { session_id := s.session_id,
        start_time := IsoString.ofTime s.start_time,
        topics_covered := s.topics_covered,
        performance := s.performance_metrics }
    { st with temp_file := { st.temp_file with current_session := some info } }

/-- `LearningTracker._create_default_profile` (the profile it builds). -/
def defaultProfile (now : Nat) : StudentProfile :=
  { student_id := "student_" ++ toString now,
    name := none, grade_level := none, learning_style := "visual",
    topics := [], total_sessions := 0, total_learning_time := 0,
    strengths := [], areas_for_improvement := [] }

/-- `LearningTracker._create_topic_progress` (the fresh record it stores). -/
def freshTopicProgress (topic : String) (now : Nat) : TopicProgress :=
  { topic_name := topic, knowledge_level := "unknown",
    first_encountered := now, last_studied := now, total_time_spent := 0,
    correct_answers := 0, incorrect_answers := 0,
    concepts_mastered := [], struggling_areas := [] }

/-- `LearningTracker.start_new_session`. -/
def startNewSession (now : Nat) (st : TrackerState) : TrackerState :=
  let s : LearningSession :=
    { session_id := "session_" ++ toString now,
      start_time := now, end_time := none,
      topics_covered := [], interactions := [],
      performance_metrics :=
        { questions_asked := 0, correct_answers := 0, incorrect_answers := 0,
          hints_used := 0, topics_explored := 0 },
      emotion_data := [] }
  { st with current_session := some s }

/-- `LearningTracker.end_current_session`: set the session's end time,
update the profile's totals and per-topic study times, flush the session to
`sessions.json` and the profile to `student_profile.json`, and clear the
current session. -/
def endCurrentSession (now : Nat) (st : TrackerState) : TrackerState :=
  match st.current_session with
  | none => st
  | some s =>
    let s' := { s with end_time := some now }
    let duration := (now - s.start_time) / 60
    let profile' :=
      match st.student_profile with
      | none => none
      | some p =>
        let k := s'.topics_covered.length
        some { p with
          total_sessions := p.total_sessions + 1,
          total_learning_time := p.total_learning_time + duration,
          topics := s'.topics_covered.foldl (fun ts t =>
            match lookupKey ts t with
            | none => ts
            | some tp => insertKey ts t
                { tp with last_studied := now,
                          total_time_spent := tp.total_time_spent + duration / k })
            p.topics }
    let st1 := { st with current_session := some s', student_profile := profile' }
    let st2 := saveSessionData st1
    let st3 := saveStudentProfile st2
    { st3 with current_session := none }

/-- The keyword table of `_extract_topic_from_interaction`. -/
def topic_keywords : List (String × List String) :=
  [ ("math", ["math", "add", "subtract", "multiply", "divide", "number", "calculate"]),
    ("reading", ["read", "story", "book", "text", "comprehension"]),
    ("science", ["science", "experiment", "hypothesis", "theory"]),
    ("writing", ["write", "essay", "paragraph", "grammar"]) ]

/-- `LearningTracker._extract_topic_from_interaction`: the first topic of
the table with a keyword occurring in the lowered text. -/
def extractTopicFromInteraction (text : String) : Option String :=
  let text_lower := text.toLower
  (topic_keywords.find? (fun e => e.2.any (fun kw => containsSub kw text_lower))).map (·.1)

/-- `LearningTracker.log_interaction`: start a session when none is active,
append the interaction, bump `questions_asked`, and record a newly covered
topic when one is extracted. -/
def logInteraction (kind input : String) (response : String) (now : Nat)
    (st : TrackerState) : TrackerState :=
  let st := if st.current_session.isNone then startNewSession now st else st
  match st.current_session with
  | none => st
  | some s =>
    let s := { s with
      interactions := s.interactions ++
        [{ timestamp := IsoString.ofTime now, kind := kind, input := input,
           response := response, success := true }],
      performance_metrics := { s.performance_metrics with
        questions_asked := s.performance_metrics.questions_asked + 1 } }
    let s :=
      match extractTopicFromInteraction input with
      | none => s
      | some topic =>
        if topic ∈ s.topics_covered then s
        else { s with
          topics_covered := s.topics_covered ++ [topic],
          performance_metrics := { s.performance_metrics with
            topics_explored := s.performance_metrics.topics_explored + 1 } }
    { st with current_session := some s }

/-- `LearningTracker.mark_topic_encountered`. -/
def markTopicEncountered (topic : String) (now : Nat) (st : TrackerState) : TrackerState :=
  let p :=
    match st.student_profile with
    | none => defaultProfile now
    | some p => p
  let p :=
    if (lookupKey p.topics topic).isSome then p
    else { p with topics := insertKey p.topics topic (freshTopicProgress topic now) }
  saveStudentProfile { st with student_profile := some p }

set_option maxHeartbeats 1000000 in
/-- The profile part of `log_answer_result` (lines 162–189): ensure the
topic exists, bump the answered counter, and maintain the `strengths` /
`areas_for_improvement` lists.  Python's guarded `list.remove` is
`List.erase` (removing an absent element is a no-op). -/
def applyAnswerProfile (topic : String) (is_correct : Bool) (now : Nat)
    (p : StudentProfile) : StudentProfile :=
  let p :=
    if (lookupKey p.topics topic).isSome then p
    else { p with topics := insertKey p.topics topic (freshTopicProgress topic now) }
  match lookupKey p.topics topic with
  | none => p
  | some tp =>
    if is_correct then
      let tp' := { tp with correct_answers := tp.correct_answers + 1 }
      let p := { p with topics := insertKey p.topics topic tp' }
      if 3 ≤ tp'.correct_answers then
        let accuracy : ℚ :=
          (tp'.correct_answers : ℚ) / ((tp'.correct_answers : ℚ) + (tp'.incorrect_answers : ℚ))
        if 0.75 ≤ accuracy ∧ topic ∉ p.strengths then
          { p with strengths := p.strengths ++ [topic],
                   areas_for_improvement := p.areas_for_improvement.erase topic }
        else p
      else p
    else
      let tp' := { tp with incorrect_answers := tp.incorrect_answers + 1 }
      let p := { p with topics := insertKey p.topics topic tp' }
      let total_attempts : Nat := tp'.correct_answers + tp'.incorrect_answers
      if 3 ≤ total_attempts then
        let accuracy : ℚ := (tp'.correct_answers : ℚ) / (total_attempts : ℚ)
        if accuracy < 0.5 ∧ topic ∉ p.areas_for_improvement then
          { p with areas_for_improvement := p.areas_for_improvement ++ [topic],
                   strengths := p.strengths.erase topic }
        else p
      else p

/-- `LearningTracker.log_answer_result`: a no-op without an active session;
otherwise bump the session metrics, update the profile (creating a default
profile when none is loaded), and flush the temp-progress and profile
files. -/
def logAnswerResult (topic : String) (is_correct : Bool) (now : Nat)
    (st : TrackerState) : TrackerState :=
  match st.current_session with
  | none => st
  | some s =>
    let pm := s.performance_metrics
    let pm' :=
      if is_correct then { pm with correct_answers := pm.correct_answers + 1 }
      else { pm with incorrect_answers := pm.incorrect_answers + 1 }
    let s' := { s with performance_metrics := pm' }
    let p0 :=
      match st.student_profile with
      | none => defaultProfile now
      | some p => p
    let p' := applyAnswerProfile topic is_correct now p0
    let st1 := { st with current_session := some s', student_profile := some p' }
    saveStudentProfile (saveTempProgress st1)

/-- The dictionary returned by `get_topic_knowledge`; the two keys absent
from the no-data branch are `Option`s. -/
structure TopicKnowledge where
  level : String
  performance : String
  struggling_areas : Option (List String)
  concepts_mastered : Option (List String)
  needs_assessment : Bool
deriving Repr, DecidableEq

/-- The interpolated performance string of `get_topic_knowledge`, with the
percentage rendered exactly. -/
def performanceStr (accuracy : ℚ) (correct total : Nat) : String :=
  toString (accuracy * 100) ++ "% accuracy (" ++ toString correct ++ "/" ++
    toString total ++ ")"

/-- `LearningTracker.get_topic_knowledge`: `None` when there is no profile
or the topic is unknown; the no-data dictionary when nothing was answered;
otherwise the level from the fixed accuracy-threshold table. -/
def getTopicKnowledge (st : TrackerState) (topic : String) : Option TopicKnowledge :=
  match st.student_profile with
  | none => none
  | some p =>
    match lookupKey p.topics topic with
    | none => none
    | some tp =>
      let total_answers := tp.correct_answers + tp.incorrect_answers
      if total_answers = 0 then
        some { level := "unknown", performance := "no data",
               struggling_areas := none, concepts_mastered := none,
               needs_assessment := true }
      else
        let accuracy : ℚ := (tp.correct_answers : ℚ) / (total_answers : ℚ)
        let level :=
          if 0.8 ≤ accuracy ∧ 5 ≤ total_answers then "advanced"
          else if 0.6 ≤ accuracy ∧ 3 ≤ total_answers then "intermediate"
          else "beginner"
        some { level := level,
               performance := performanceStr accuracy tp.correct_answers total_answers,
               struggling_areas := some tp.struggling_areas,
               concepts_mastered := some tp.concepts_mastered,
               needs_assessment := false }

/-! ## Math commands (`backend/commands/math_commands.py`)

Extracted numbers are modelled as exact rationals: a Python `int` is a
rational with denominator 1, and the handlers' `int(result) if result ==
int(result) else ...` normalisation is the denominator test. -/

/-- Python `str` on a number. -/
def pyStr (q : ℚ) : String := toString q

/-- `str(int(v) if v == int(v) else v)`. -/
def pyIntStr (q : ℚ) : String := if q.den = 1 then toString q.num else pyStr q

/-- `'sep'.join(str(n) for n in numbers)`. -/
def joinNums (sep : String) (numbers : List ℚ) : String :=
  String.intercalate sep (numbers.map pyStr)

/-- Python `max` over a number list (0 for the empty list, which Python
rejects; every use is guarded by a length check). -/
def pyMax : List ℚ → ℚ
  | [] => 0
  | x :: xs => xs.foldl max x

/-- Python `int()` truncation toward zero on a number. -/
def ratTrunc (q : ℚ) : Int := q.num.tdiv (q.den : Int)

/-- One teaching approach of `MathCommands.grade_approaches`. -/
structure Approach where
  max_numbers : Nat
  use_objects : Bool
  simple_language : Bool
  visual_heavy : Bool
deriving Repr, DecidableEq

/-- `self.grade_approaches.get(grade_level, self.grade_approaches["third_grade"])`. -/
def grade_approaches (grade_level : String) : Approach :=
  if grade_level = "kindergarten" then ⟨10, true, true, true⟩
  else if grade_level = "first_grade" then ⟨20, true, true, true⟩
  else if grade_level = "second_grade" then ⟨100, false, true, true⟩
  else if grade_level = "third_grade" then ⟨1000, false, false, false⟩
  else if grade_level = "fourth_grade" then ⟨10000, false, false, false⟩
  else if grade_level = "fifth_grade" then ⟨100000, false, false, false⟩
  else if grade_level = "sixth_grade" then ⟨1000000, false, false, false⟩
  else ⟨1000, false, false, false⟩

/-- One dictionary of a visual scene; keys absent from a given item are
`none`. -/
structure SceneItem where
  id : String
  kind : String
  x : Int
  y : Int
  text : Option String := none
  fontSize : Option Nat := none
  fontFamily : Option String := none
  count : Option Nat := none
deriving Repr, DecidableEq

/-- A text item of a scene (`"type": "text"`, font size 32, Arial). -/
def textItem (id : String) (x y : Int) (s : String) : SceneItem :=
  { id := id, kind := "text", x := x, y := y, text := some s,
    fontSize := some 32, fontFamily := some "Arial" }

/-- The equation part of the addition / multiplication scenes: a number
every 60 px and an operator every 40 px; returns the items and the final
`x_position`. -/
def equationItems (stem symbol : String) : List ℚ → Nat → Int → List SceneItem × Int
  | [], _, x => ([], x)
  | [n], i, x => ([textItem ("num-" ++ toString i) x 150 (pyIntStr n)], x + 60)
  | n :: n' :: rest, i, x =>
    let items := [textItem ("num-" ++ toString i) x 150 (pyIntStr n),
                  textItem (stem ++ "-" ++ toString i) (x + 60) 150 symbol]
    let (restItems, xf) := equationItems stem symbol (n' :: rest) (i + 1) (x + 100)
    (items ++ restItems, xf)

/-- The operator/number tail of the subtraction / division scenes
(`enumerate(numbers[1:], 1)`). -/
def equationTail (stem symbol : String) : List ℚ → Nat → Int → List SceneItem × Int
  | [], _, x => ([], x)
  | n :: rest, i, x =>
    let items := [textItem (stem ++ "-" ++ toString i) x 150 symbol,
                  textItem ("num-" ++ toString i) (x + 40) 150 (pyIntStr n)]
    let (restItems, xf) := equationTail stem symbol rest (i + 1) (x + 100)
    (items ++ restItems, xf)

/-- A row of apple objects (`"type": "apple"`, y 250, 50 px apart). -/
def appleRow (tag : String) (count : Nat) (xStart : Int) : List SceneItem :=
  (List.range count).map (fun i =>
    { id := "apple-" ++ tag ++ "-" ++ toString i, kind := "apple",
      x := xStart + (i : Int) * 50, y := 250, count := some 1 })

/-- `MathCommands._create_addition_scene`. -/
def createAdditionScene (numbers : List ℚ) (result : ℚ) (approach : Approach) :
    List SceneItem :=
  let (eq, xf) := equationItems "plus" "+" numbers 0 100
  let base := eq ++ [textItem "equals" xf 150 "=",
                     textItem "result" (xf + 40) 150 (pyIntStr result)]
  if approach.use_objects ∧ numbers.length = 2 ∧ pyMax numbers ≤ 10 then
    let n0 := (ratTrunc (numbers.headD 0)).toNat
    let n1 := (ratTrunc (numbers.tail.headD 0)).toNat
    base ++ appleRow "group1" n0 100 ++
      appleRow "group2" n1 (100 + ratTrunc (numbers.headD 0) * 50 + 80)
  else base

/-- `MathCommands._create_subtraction_scene`. -/
def createSubtractionScene (numbers : List ℚ) (result : ℚ) (_approach : Approach) :
    List SceneItem :=
  let head := textItem "num-0" 100 150 (pyIntStr (numbers.headD 0))
  let (tailItems, xf) := equationTail "minus" "-" numbers.tail 1 160
  head :: tailItems ++ [textItem "equals" xf 150 "=",
                        textItem "result" (xf + 40) 150 (pyIntStr result)]

/-- `MathCommands._create_multiplication_scene`. -/
def createMultiplicationScene (numbers : List ℚ) (result : ℚ) (_approach : Approach) :
    List SceneItem :=
  let (eq, xf) := equationItems "times" "×" numbers 0 100
  eq ++ [textItem "equals" xf 150 "=",
         textItem "result" (xf + 40) 150 (pyIntStr result)]

/-- `MathCommands._create_division_scene` (the result item uses plain
`str(result)`). -/
def createDivisionScene (numbers : List ℚ) (result : ℚ) (_approach : Approach) :
    List SceneItem :=
  let head := textItem "num-0" 100 150 (pyIntStr (numbers.headD 0))
  let (tailItems, xf) := equationTail "divide" "÷" numbers.tail 1 160
  head :: tailItems ++ [textItem "equals" xf 150 "=",
                        textItem "result" (xf + 40) 150 (pyStr result)]

/-- `MathCommands._create_addition_explanation`. -/
def createAdditionExplanation (numbers : List ℚ) (result : ℚ) (approach : Approach)
    (_grade_level : String) : String :=
  if approach.simple_language then
    if numbers.length = 2 then
      let n0 := numbers.headD 0
      let n1 := numbers.tail.headD 0
      let e := "Let\x27s add " ++ pyStr n0 ++ " and " ++ pyStr n1 ++ " together!\n\n"
      let e :=
        if approach.use_objects ∧ pyMax numbers ≤ 10 then
          e ++ "Imagine we have " ++ pyStr n0 ++ " apples and we get " ++ pyStr n1 ++
            " more apples. " ++ "Now we have " ++ pyStr result ++ " apples altogether!\n\n"
        else e
      e ++ "So " ++ pyStr n0 ++ " + " ++ pyStr n1 ++ " = " ++ pyStr result
    else
      "Let\x27s add all these numbers: " ++ joinNums ", " numbers ++ ".\n\n" ++
        "When we add them all together, we get " ++ pyStr result ++ "."
  else
    let e := "Let\x27s solve " ++ joinNums " + " numbers ++ ".\n\n"
    let e :=
      if 2 < numbers.length then
        e ++ "We can add multiple numbers by combining their values step by step.\n\n"
      else e
    e ++ "The sum of " ++ joinNums " + " numbers ++ " is " ++ pyStr result ++ "."

/-- `MathCommands._create_subtraction_explanation`. -/
def createSubtractionExplanation (numbers : List ℚ) (result : ℚ) (approach : Approach)
    (_grade_level : String) : String :=
  let first_num := numbers.headD 0
  let other_nums := numbers.tail
  if approach.simple_language then
    if numbers.length = 2 then
      let o0 := other_nums.headD 0
      let e := "Let\x27s start with " ++ pyStr first_num ++ " and take away " ++
        pyStr o0 ++ ".\n\n"
      let e :=
        if approach.use_objects ∧ first_num ≤ 10 then
          e ++ "Imagine we have " ++ pyStr first_num ++ " cookies and we eat " ++
            pyStr o0 ++ " of them. " ++ "How many cookies do we have left? We have " ++
            pyStr result ++ " cookies!\n\n"
        else e
      e ++ "So " ++ pyStr first_num ++ " - " ++ pyStr o0 ++ " = " ++ pyStr result
    else
      "Let\x27s start with " ++ pyStr first_num ++ " and subtract the other numbers.\n\n" ++
        pyStr first_num ++ " - " ++ joinNums " - " other_nums ++ " = " ++ pyStr result
  else
    "Let\x27s calculate " ++ pyStr first_num ++ " - " ++ joinNums " - " other_nums ++
      ".\n\n" ++ "When we subtract, we find what\x27s left after taking away.\n\n" ++
      "The result is " ++ pyStr result ++ "."

/-- `MathCommands._create_multiplication_explanation`. -/
def createMultiplicationExplanation (numbers : List ℚ) (result : ℚ) (approach : Approach)
    (_grade_level : String) : String :=
  if approach.simple_language ∧ numbers.length = 2 then
    let num1 := numbers.headD 0
    let num2 := numbers.tail.headD 0
    let e := "Let\x27s see what " ++ pyStr num1 ++ " groups of " ++ pyStr num2 ++
      " looks like!\n\n"
    let e :=
      if approach.use_objects ∧ pyMax numbers ≤ 5 then
        e ++ "Imagine " ++ pyStr num1 ++ " groups with " ++ pyStr num2 ++
          " items in each group.\n" ++ "If we count all the items, we get " ++
          pyStr result ++ "!\n\n"
      else e
    e ++ "So " ++ pyStr num1 ++ " × " ++ pyStr num2 ++ " = " ++ pyStr result
  else
    "Let\x27s calculate " ++ joinNums " × " numbers ++ ".\n\n" ++
      "Multiplication gives us the total when we have equal groups.\n\n" ++
      "The product is " ++ pyStr result ++ "."

/-- `MathCommands._create_division_explanation`. -/
def createDivisionExplanation (numbers : List ℚ) (result : ℚ) (approach : Approach)
    (_grade_level : String) : String :=
  if approach.simple_language ∧ numbers.length = 2 then
    let dividend := numbers.headD 0
    let divisor := numbers.tail.headD 0
    let e := "Let\x27s share " ++ pyStr dividend ++ " items equally among " ++
      pyStr divisor ++ " groups.\n\n"
    let e :=
      if approach.use_objects ∧ dividend ≤ 20 ∧ divisor ≤ 5 then
        e ++ "If we have " ++ pyStr dividend ++ " cookies and share them equally among " ++
          pyStr divisor ++ " friends, " ++ "each friend gets " ++ pyStr result ++
          " cookies.\n\n"
      else e
    e ++ "So " ++ pyStr dividend ++ " ÷ " ++ pyStr divisor ++ " = " ++ pyStr result
  else
    "Let\x27s calculate " ++ joinNums " ÷ " numbers ++ ".\n\n" ++
      "Division helps us find how many equal groups we can make.\n\n" ++
      "The quotient is " ++ pyStr result ++ "."

/-- The `final_answer` dictionary of a successful math command. -/
structure FinalAnswer where
  correct_value : String
  explanation : String
  feedback_correct : String
  feedback_incorrect : String
deriving Repr, DecidableEq

/-- The result dictionary of a command handler; the failure branches carry
an empty scene and an empty `final_answer` dict (`none`). -/
structure CommandResult where
  success : Bool
  response : String
  scene : List SceneItem
  final_answer : Option FinalAnswer
deriving Repr, DecidableEq

/-- A failure result: `success False`, empty scene, empty `final_answer`. -/
def failResult (response : String) : CommandResult :=
  { success := false, response := response, scene := [], final_answer := none }

/-- `MathCommands._handle_addition`, with the learning tracker threaded as
explicit state. -/
def handleAddition (numbers : List ℚ) (grade_level text : String) (now : Nat)
    (st : TrackerState) : CommandResult × TrackerState :=
  if numbers.length < 2 then
    (failResult "I need at least two numbers to add together.", st)
  else
    let result := numbers.sum
    let approach := grade_approaches grade_level
    let explanation := createAdditionExplanation numbers result approach grade_level
    let scene := createAdditionScene numbers result approach
    let final_answer : FinalAnswer :=
      { correct_value := pyIntStr result,
        explanation := "Adding " ++ joinNums " + " numbers ++ " equals " ++ pyStr result,
        feedback_correct := "Excellent! You got the addition correct!",
        feedback_incorrect := "Not quite. When we add " ++ joinNums " + " numbers ++
          ", we get " ++ pyStr result ++ "." }
    let st := markTopicEncountered "math" now st
    let st := logInteraction "math_addition" text
      ("Solved: " ++ joinNums " + " numbers ++ " = " ++ pyStr result) now st
    ({ success := true, response := explanation, scene := scene,
       final_answer := some final_answer }, st)

/-- `MathCommands._handle_subtraction`: the first number minus every
subsequent one. -/
def handleSubtraction (numbers : List ℚ) (grade_level text : String) (now : Nat)
    (st : TrackerState) : CommandResult × TrackerState :=
  if numbers.length < 2 then
    (failResult "I need at least two numbers for subtraction.", st)
  else
    let result := numbers.tail.foldl (fun acc n => acc - n) (numbers.headD 0)
    let approach := grade_approaches grade_level
    let explanation := createSubtractionExplanation numbers result approach grade_level
    let scene := createSubtractionScene numbers result approach
    let final_answer : FinalAnswer :=
      { correct_value := pyIntStr result,
        explanation := "Subtracting gives us " ++ pyStr result,
        feedback_correct := "Great job with subtraction!",
        feedback_incorrect := "The correct answer is " ++ pyStr result ++ "." }
    let st := markTopicEncountered "math" now st
    let st := logInteraction "math_subtraction" text
      ("Solved: " ++ pyStr (numbers.headD 0) ++ " - " ++ joinNums " - " numbers.tail ++
        " = " ++ pyStr result) now st
    ({ success := true, response := explanation, scene := scene,
       final_answer := some final_answer }, st)

/-- `MathCommands._handle_multiplication`: the running product starting
at 1. -/
def handleMultiplication (numbers : List ℚ) (grade_level text : String) (now : Nat)
    (st : TrackerState) : CommandResult × TrackerState :=
  if numbers.length < 2 then
    (failResult "I need at least two numbers to multiply.", st)
  else
    let result := numbers.foldl (fun acc n => acc * n) 1
    let approach := grade_approaches grade_level
    let explanation := createMultiplicationExplanation numbers result approach grade_level
    let scene := createMultiplicationScene numbers result approach
    let final_answer : FinalAnswer :=
      { correct_value := pyIntStr result,
        explanation := "Multiplying gives us " ++ pyStr result,
        feedback_correct := "Perfect multiplication!",
        feedback_incorrect := "The correct answer is " ++ pyStr result ++ "." }
    let st := markTopicEncountered "math" now st
    let st := logInteraction "math_multiplication" text
      ("Solved: " ++ joinNums " × " numbers ++ " = " ++ pyStr result) now st
    ({ success := true, response := explanation, scene := scene,
       final_answer := some final_answer }, st)

/-- The division loop `for num in numbers[1:]: result /= num`, with
Python's `ZeroDivisionError` as `none`. -/
def divFold (a : ℚ) : List ℚ → Option ℚ
  | [] => some a
  | n :: rest => if n = 0 then none else divFold (a / n) rest

/-- Round-half-to-even to an integer (Python's `round`), on an exact
rational. -/
def halfEvenInt (x : ℚ) : ℤ :=
  let f := ⌊x⌋
  let frac := x - (f : ℚ)
  if frac < 1/2 then f
  else if 1/2 < frac then f + 1
  else if f % 2 = 0 then f else f + 1

/-- `round(result, 2)` on an exact rational. -/
def roundTo2 (q : ℚ) : ℚ := (halfEvenInt (q * 100) : ℚ) / 100

/-- `MathCommands._handle_division`: the guards of the source, then the
division loop; a `ZeroDivisionError` escaping the handler is the `.error`
case. -/
def handleDivision (numbers : List ℚ) (grade_level text : String) (now : Nat)
    (st : TrackerState) : Except String (CommandResult × TrackerState) :=
  if numbers.length < 2 then
    .ok (failResult "I need at least two numbers for division.", st)
  else if numbers.tail.any (fun n => n = 0) then
    .ok (failResult "I can\x27t divide by zero. That\x27s undefined in mathematics.", st)
  else
    match divFold (numbers.headD 0) numbers.tail with
    | none => .error "float division by zero"
    | some r =>
      let result := if r.den = 1 then r else roundTo2 r
      let approach := grade_approaches grade_level
      let explanation := createDivisionExplanation numbers result approach grade_level
      let scene := createDivisionScene numbers result approach
      let final_answer : FinalAnswer :=
        { correct_value := pyStr result,
          explanation := "Dividing gives us " ++ pyStr result,
          feedback_correct := "Excellent division work!",
          feedback_incorrect := "The correct answer is " ++ pyStr result ++ "." }
      let st := markTopicEncountered "math" now st
      let st := logInteraction "math_division" text
        ("Solved: " ++ pyStr (numbers.headD 0) ++ " ÷ " ++ joinNums " ÷ " numbers.tail ++
          " = " ++ pyStr result) now st
      .ok ({ success := true, response := explanation, scene := scene,
             final_answer := some final_answer }, st)

/-! ## Observations and fixtures used by the claim statements -/

/-- The progress record the profile holds for a topic (`None` when there is
no profile or no such topic). -/
def observeTopic (st : TrackerState) (topic : String) : Option TopicProgress :=
  match st.student_profile with
  | none => none
  | some p => lookupKey p.topics topic

/-- The topic's `correct_answers` counter (0 when the topic is absent). -/
def topicCorrect (st : TrackerState) (topic : String) : Nat :=
  match observeTopic st topic with
  | none => 0
  | some tp => tp.correct_answers

/-- The topic's `incorrect_answers` counter (0 when the topic is absent). -/
def topicIncorrect (st : TrackerState) (topic : String) : Nat :=
  match observeTopic st topic with
  | none => 0
  | some tp => tp.incorrect_answers

/-- The profile's `strengths` list (empty without a profile). -/
def strengthsOf (st : TrackerState) : List String :=
  match st.student_profile with
  | none => []
  | some p => p.strengths

/-- The profile's `areas_for_improvement` list (empty without a profile). -/
def areasOf (st : TrackerState) : List String :=
  match st.student_profile with
  | none => []
  | some p => p.areas_for_improvement

/-- An empty `temp_progress.json`. -/
def emptyTemp : TempProgress := { current_session := none, learning_objectives := [] }

/-- `LearningTracker._create_default_profile` as an action on the tracker
state. -/
def createDefaultProfileState (now : Nat) (st : TrackerState) : TrackerState :=
  { st with student_profile := some (defaultProfile now) }

/-- A tracker freshly constructed over an empty data directory, with a
default student profile created and a session started at time 0. -/
def freshStudentTracker : TrackerState :=
  createDefaultProfileState 0 (startNewSession 0 (initTracker none [] emptyTemp))

/-- One `log_answer_result(topic, is_correct)` call at a given time. -/
def answerCall (st : TrackerState) (c : String × Bool × Nat) : TrackerState :=
  logAnswerResult c.1 c.2.1 c.2.2 st

/-- A sample topic-progress record (4 correct, 1 incorrect). -/
def tpSample : TopicProgress :=
  { topic_name := "math", knowledge_level := "beginner",
    first_encountered := 10, last_studied := 20, total_time_spent := 3,
    correct_answers := 4, incorrect_answers := 1,
    concepts_mastered := [], struggling_areas := [] }

/-- A sample student profile holding one topic. -/
def profileSample : StudentProfile :=
  { student_id := "student_1", name := none, grade_level := none,
    learning_style := "visual", topics := [("math", tpSample)],
    total_sessions := 2, total_learning_time := 30,
    strengths := ["math"], areas_for_improvement := [] }

/-- A tracker state holding the sample profile, no session, and empty data
files. -/
def stSample : TrackerState :=
  { current_session := none, student_profile := some profileSample,
    profile_file := none, sessions_file := [], temp_file := emptyTemp }

/-- The sample state with a stale profile file left by an earlier save. -/
def stSampleStale : TrackerState :=
  { stSample with profile_file := some (profileToJson (defaultProfile 5)) }

/-- The metrics of the sample session. -/
def metricsSample : PerformanceMetrics :=
  { questions_asked := 1, correct_answers := 1, incorrect_answers := 0,
    hints_used := 0, topics_explored := 1 }

/-- A sample running session. -/
def sessionSample : LearningSession :=
  { session_id := "session_42", start_time := 42, end_time := none,
    topics_covered := ["math"], interactions := [],
    performance_metrics := metricsSample, emotion_data := [] }

/-- The sample state with the sample session active. -/
def stSessionSample : TrackerState :=
  { stSample with current_session := some sessionSample }

/-- Three correct math answers, as `log_answer_result` calls. -/
def callsSample : List (String × Bool × Nat) :=
  [("math", true, 1), ("math", true, 2), ("math", true, 3)]

/-- The lists invariant of a profile: `strengths` and
`areas_for_improvement` repeat no topic and share none. -/
def ListsInv (p : StudentProfile) : Prop :=
  p.strengths.Nodup ∧ p.areas_for_improvement.Nodup ∧
    ∀ x ∈ p.strengths, x ∉ p.areas_for_improvement

/-- The lists invariant lifted to a tracker state. -/
def ListsInvState (st : TrackerState) : Prop :=
  ∀ p, st.student_profile = some p → ListsInv p

/-! ## Helper lemmas -/

theorem lookupKey_insertKey_self {α : Type} (l : List (String × α)) (k : String) (v : α) :
    lookupKey (insertKey l k v) k = some v := by
  induction l with
  | nil => simp [insertKey, lookupKey]
  | cons hd tl ih =>
    obtain ⟨k', v'⟩ := hd
    by_cases h : k' = k <;> simp [insertKey, lookupKey, h, ih]

theorem lookupKey_insertKey_ne {α : Type} (l : List (String × α)) (k k' : String) (v : α)
    (h : k' ≠ k) : lookupKey (insertKey l k v) k' = lookupKey l k' := by
  induction l with
  | nil => simp [insertKey, lookupKey, Ne.symm h]
  | cons hd tl ih =>
    obtain ⟨k0, v0⟩ := hd
    by_cases h0 : k0 = k
    · subst h0
      simp [insertKey, lookupKey, Ne.symm h]
    · simp only [insertKey, if_neg h0, lookupKey]
      by_cases h1 : k0 = k' <;> simp [h1, ih]

theorem insertKey_insertKey_same {α : Type} (l : List (String × α)) (k : String) (v w : α) :
    insertKey (insertKey l k v) k w = insertKey l k w := by
  induction l with
  | nil => simp [insertKey]
  | cons hd tl ih =>
    obtain ⟨k', v'⟩ := hd
    by_cases h : k' = k <;> simp [insertKey, h, ih]

theorem getLast?_drop_of_lt {α : Type} (l : List α) (n : Nat) (h : n < l.length) :
    (l.drop n).getLast? = l.getLast? := by
  induction n generalizing l with
  | zero => rfl
  | succ n ih =>
    cases l with
    | nil => simp at h
    | cons a t =>
      have ht : n < t.length := by simpa using h
      rw [List.drop_succ_cons, ih t ht]
      cases t with
      | nil => simp at ht
      | cons b u => rw [List.getLast?_cons_cons]

theorem topicFromJson_topicToJson (tp : TopicProgress) :
    topicFromJson (topicToJson tp) = tp := rfl

theorem profileFromJson_profileToJson (p : StudentProfile) :
    profileFromJson (profileToJson p) = p := by
  have hmap : p.topics.map
      ((fun e : String × TopicProgressJson => (e.1, topicFromJson e.2)) ∘
        (fun e : String × TopicProgress => (e.1, topicToJson e.2))) = p.topics := by
    rw [show ((fun e : String × TopicProgressJson => (e.1, topicFromJson e.2)) ∘
        (fun e : String × TopicProgress => (e.1, topicToJson e.2))) = id from rfl,
      List.map_id]
  simp only [profileFromJson, profileToJson, List.map_map, hmap]

theorem applyAnswerProfile_topics (topic : String) (c : Bool) (now : Nat)
    (p : StudentProfile) :
    (applyAnswerProfile topic c now p).topics
      = insertKey p.topics topic
          (let tp := (lookupKey p.topics topic).getD (freshTopicProgress topic now)
           if c then { tp with correct_answers := tp.correct_answers + 1 }
           else { tp with incorrect_answers := tp.incorrect_answers + 1 }) := by
  unfold applyAnswerProfile
  rcases hl : lookupKey p.topics topic with _ | tp
  · simp only [hl, Option.isSome_none, Bool.false_eq_true, if_false, Option.getD_none,
      lookupKey_insertKey_self]
    cases c <;> split_ifs <;> simp [insertKey_insertKey_same]
  · simp only [hl, Option.isSome_some, if_true, Option.getD_some]
    cases c <;> split_ifs <;> simp

theorem logAnswerResult_profile (topic : String) (c : Bool) (now : Nat)
    (st : TrackerState) (s : LearningSession) (hs : st.current_session = some s) :
    (logAnswerResult topic c now st).student_profile
      = some (applyAnswerProfile topic c now
          (match st.student_profile with
           | none => defaultProfile now
           | some p => p)) := by
  simp only [logAnswerResult, hs]
  simp [saveTempProgress, saveStudentProfile]

theorem listsInv_add_strength (s a : List String) (t : String)
    (hs : s.Nodup) (ha : a.Nodup) (hd : ∀ x ∈ s, x ∉ a) (ht : t ∉ s) :
    (s ++ [t]).Nodup ∧ (a.erase t).Nodup ∧ ∀ x ∈ s ++ [t], x ∉ a.erase t := by
  refine ⟨by simp [List.nodup_append, hs, ht], ha.erase t, ?_⟩
  intro x hx hmem
  rcases List.mem_append.mp hx with hx | hx
  · exact hd x hx (List.mem_of_mem_erase hmem)
  · have hxt : x = t := by simpa using hx
    subst hxt
    exact ((ha.mem_erase_iff).mp hmem).1 rfl

theorem listsInv_add_area (s a : List String) (t : String)
    (hs : s.Nodup) (ha : a.Nodup) (hd : ∀ x ∈ s, x ∉ a) (ht : t ∉ a) :
    (s.erase t).Nodup ∧ (a ++ [t]).Nodup ∧ ∀ x ∈ s.erase t, x ∉ a ++ [t] := by
  refine ⟨hs.erase t, by simp [List.nodup_append, ha, ht], ?_⟩
  intro x hx
  obtain ⟨hxt, hxs⟩ := (hs.mem_erase_iff).mp hx
  simp only [List.mem_append, List.mem_singleton]
  rintro (hxa | rfl)
  · exact hd x hxs hxa
  · exact hxt rfl

theorem listsInv_applyAnswerProfile (topic : String) (c : Bool) (now : Nat)
    (p : StudentProfile) (h : ListsInv p) :
    ListsInv (applyAnswerProfile topic c now p) := by
  obtain ⟨hs, ha, hd⟩ := h
  unfold applyAnswerProfile
  rcases hl0 : lookupKey p.topics topic with _ | tp0
  · simp only [hl0, Option.isSome_none, Bool.false_eq_true, if_false,
      lookupKey_insertKey_self]
    cases c
    · simp only [Bool.false_eq_true, if_false]
      split_ifs with h1 h2
      · obtain ⟨H1, H2, H3⟩ :=
          listsInv_add_area p.strengths p.areas_for_improvement topic hs ha hd h2.2
        exact ⟨H1, H2, H3⟩
      · exact ⟨hs, ha, hd⟩
      · exact ⟨hs, ha, hd⟩
    · simp only [eq_self_iff_true, if_true]
      split_ifs with h1 h2
      · obtain ⟨H1, H2, H3⟩ :=
          listsInv_add_strength p.strengths p.areas_for_improvement topic hs ha hd h2.2
        exact ⟨H1, H2, H3⟩
      · exact ⟨hs, ha, hd⟩
      · exact ⟨hs, ha, hd⟩
  · simp only [hl0, Option.isSome_some, eq_self_iff_true, if_true]
    cases c
    · simp only [Bool.false_eq_true, if_false]
      split_ifs with h1 h2
      · obtain ⟨H1, H2, H3⟩ :=
          listsInv_add_area p.strengths p.areas_for_improvement topic hs ha hd h2.2
        exact ⟨H1, H2, H3⟩
      · exact ⟨hs, ha, hd⟩
      · exact ⟨hs, ha, hd⟩
    · simp only [eq_self_iff_true, if_true]
      split_ifs with h1 h2
      · obtain ⟨H1, H2, H3⟩ :=
          listsInv_add_strength p.strengths p.areas_for_improvement topic hs ha hd h2.2
        exact ⟨H1, H2, H3⟩
      · exact ⟨hs, ha, hd⟩
      · exact ⟨hs, ha, hd⟩

theorem listsInvState_logAnswerResult (topic : String) (c : Bool) (now : Nat)
    (st : TrackerState) (h : ListsInvState st) :
    ListsInvState (logAnswerResult topic c now st) := by
  rcases hs : st.current_session with _ | s
  · simpa [logAnswerResult, hs] using h
  · intro q hq
    rw [logAnswerResult_profile topic c now st s hs, Option.some.injEq] at hq
    subst hq
    apply listsInv_applyAnswerProfile
    rcases hsp : st.student_profile with _ | p
    · exact ⟨List.nodup_nil, List.nodup_nil, by simp [defaultProfile]⟩
    · exact h p hsp

theorem listsInvState_foldl (calls : List (String × Bool × Nat)) (st : TrackerState)
    (h : ListsInvState st) : ListsInvState (calls.foldl answerCall st) := by
  induction calls generalizing st with
  | nil => exact h
  | cons a rest ih =>
    simp only [List.foldl_cons]
    exact ih _ (listsInvState_logAnswerResult a.1 a.2.1 a.2.2 st h)

theorem foldl_sub_eq (l : List ℚ) (a : ℚ) :
    l.foldl (fun x y => x - y) a = a - l.sum := by
  induction l generalizing a with
  | nil => simp
  | cons b t ih => simp [ih, sub_sub]

theorem sum_map_ratCast (l : List ℤ) :
    (l.map (fun (z : ℤ) => (z : ℚ))).sum = (l.sum : ℚ) := by
  induction l with
  | nil => simp
  | cons a t ih => rw [List.map_cons, List.sum_cons, ih, List.sum_cons, Int.cast_add]

theorem prod_map_ratCast (l : List ℤ) :
    (l.map (fun (z : ℤ) => (z : ℚ))).prod = (l.prod : ℚ) := by
  induction l with
  | nil => simp
  | cons a t ih => rw [List.map_cons, List.prod_cons, ih, List.prod_cons, Int.cast_mul]

theorem pyIntStr_intCast (z : ℤ) : pyIntStr (z : ℚ) = toString z := by
  simp [pyIntStr, Rat.den_intCast, Rat.num_intCast]

theorem divFold_some (l : List ℚ) (a : ℚ) (h : ∀ n ∈ l, n ≠ 0) :
    ∃ r, divFold a l = some r := by
  induction l generalizing a with
  | nil => exact ⟨a, rfl⟩
  | cons b t ih =>
    have hb : b ≠ 0 := h b (List.mem_cons_self b t)
    obtain ⟨r, hr⟩ := ih (a / b) (fun n hn => h n (List.mem_cons_of_mem b hn))
    exact ⟨r, by simp [divFold, hb, hr]⟩

/-! ## Claim theorems -/

/-- **C2.** For every utterance, `process_text_input` routes to command
execution iff `classify_intent` returns intent `"command"` with confidence
strictly greater than 0.7; in every other case the utterance is handled as
an educational query, so each utterance takes exactly one of the two
initial routes. -/
theorem route_command_iff (rmatch : String → String → Bool) (text : String) :
    (routeOf (classify_intent rmatch text) = Route.command ↔
      ((classify_intent rmatch text).intent = "command" ∧
        (0.7 : ℚ) < (classify_intent rmatch text).confidence)) ∧
    (routeOf (classify_intent rmatch text) = Route.educational ↔
      ¬((classify_intent rmatch text).intent = "command" ∧
        (0.7 : ℚ) < (classify_intent rmatch text).confidence)) := by
  unfold routeOf
  split_ifs with h <;> simp [h]

/-- **C6.** `classify_intent` is total and two-valued: every result's
intent is `"command"` or `"educational"` with confidence at least 0.5; the
intent is `"command"` exactly when the best command-pattern match scores
strictly above 0.6; and when neither a command pattern exceeds 0.6 nor an
educational pattern exceeds 0.5, the result is the educational default with
confidence exactly 0.5 and no matched pattern. -/
theorem classify_intent_rule_table (rmatch : String → String → Bool) (text : String) :
    ((classify_intent rmatch text).intent = "command" ∨
      (classify_intent rmatch text).intent = "educational") ∧
    (1/2 : ℚ) ≤ (classify_intent rmatch text).confidence ∧
    ((classify_intent rmatch text).intent = "command" ↔
      (0.6 : ℚ) < (check_patterns rmatch (text.toLower.trim) command_patterns).confidence) ∧
    (¬ (0.6 : ℚ) < (check_patterns rmatch (text.toLower.trim) command_patterns).confidence →
      ¬ (0.5 : ℚ) < (check_patterns rmatch (text.toLower.trim) educational_patterns).confidence →
      classify_intent rmatch text =
        { intent := "educational", confidence := 0.5, matched_pattern := none,
          keywords := [], original_text := text }) := by
  unfold classify_intent
  simp only []
  split_ifs with h1 h2
  · refine ⟨Or.inl rfl, by norm_num at h1 ⊢; linarith, by simp [h1], fun h _ => absurd h1 h⟩
  · refine ⟨Or.inr rfl, by norm_num at h2 ⊢; linarith, ?_, fun _ h => absurd h2 h⟩
    simp only [h1, iff_false]
    decide
  · refine ⟨Or.inr rfl, by norm_num, ?_, fun _ _ => rfl⟩
    simp only [h1, iff_false]
    decide

/-- **C1.** `get_topic_knowledge` derives the level from the fixed
accuracy-threshold table: `None` for a topic absent from the profile; level
`"unknown"` with `needs_assessment` for a topic with zero recorded answers;
otherwise, with accuracy = correct / (correct + incorrect), level
`"advanced"` iff accuracy ≥ 0.8 and at least 5 answers, else
`"intermediate"` iff accuracy ≥ 0.6 and at least 3 answers, else
`"beginner"`. -/
theorem get_topic_knowledge_table (st : TrackerState) (topic : String) :
    (observeTopic st topic = none → getTopicKnowledge st topic = none) ∧
    (∀ tp : TopicProgress, observeTopic st topic = some tp →
      (getTopicKnowledge st topic).isSome = true ∧
      (tp.correct_answers + tp.incorrect_answers = 0 →
        getTopicKnowledge st topic = some
          { level := "unknown", performance := "no data", struggling_areas := none,
            concepts_mastered := none, needs_assessment := true }) ∧
      (tp.correct_answers + tp.incorrect_answers ≠ 0 →
        ∀ k : TopicKnowledge, getTopicKnowledge st topic = some k →
          let total := tp.correct_answers + tp.incorrect_answers
          let accuracy : ℚ := (tp.correct_answers : ℚ) / (total : ℚ)
          k.needs_assessment = false ∧
          (k.level = "advanced" ↔ ((0.8 : ℚ) ≤ accuracy ∧ 5 ≤ total)) ∧
          (k.level = "intermediate" ↔
            (¬((0.8 : ℚ) ≤ accuracy ∧ 5 ≤ total) ∧
              ((0.6 : ℚ) ≤ accuracy ∧ 3 ≤ total))) ∧
          (k.level = "beginner" ↔
            (¬((0.8 : ℚ) ≤ accuracy ∧ 5 ≤ total) ∧
              ¬((0.6 : ℚ) ≤ accuracy ∧ 3 ≤ total))))) := by
  rcases hsp : st.student_profile with _ | p
  · refine ⟨fun _ => by simp [getTopicKnowledge, hsp], fun tp htp => ?_⟩
    simp [observeTopic, hsp] at htp
  · rcases hlk : lookupKey p.topics topic with _ | tp0
    · refine ⟨fun _ => by simp [getTopicKnowledge, hsp, hlk], fun tp htp => ?_⟩
      simp [observeTopic, hsp, hlk] at htp
    · refine ⟨fun h => ?_, fun tp htp => ?_⟩
      · simp [observeTopic, hsp, hlk] at h
      · have htp0 : tp0 = tp := by simpa [observeTopic, hsp, hlk] using htp
        subst htp0
        refine ⟨?_, fun h0 => ?_, fun hne k hk => ?_⟩
        · simp only [getTopicKnowledge, hsp, hlk]
          split_ifs <;> simp
        · simp [getTopicKnowledge, hsp, hlk, h0]
        · simp only [getTopicKnowledge, hsp, hlk, if_neg hne, Option.some.injEq] at hk
          subst hk
          refine ⟨rfl, ?_, ?_, ?_⟩ <;>
            · simp only []
              split_ifs with hA hB <;> simp_all

/-- **C4.** The student profile is persisted as a single JSON record: the
constructor loads the file when it exists, and a save serialises the whole
in-memory profile, replacing the previous file content wholesale — the
written file does not depend on any earlier file state, and it determines
the in-memory profile exactly. -/
theorem profile_saved_wholesale (file : Option StudentProfileJson)
    (sessions : List LearningSessionJson) (temp : TempProgress)
    (p : StudentProfile) (st st' : TrackerState)
    (h : st.student_profile = some p) (h' : st'.student_profile = some p) :
    (initTracker file sessions temp).student_profile = file.map profileFromJson ∧
    (saveStudentProfile st).profile_file = some (profileToJson p) ∧
    (saveStudentProfile st).profile_file = (saveStudentProfile st').profile_file ∧
    profileFromJson (profileToJson p) = p := by
  refine ⟨rfl, ?_, ?_, profileFromJson_profileToJson p⟩
  · simp [saveStudentProfile, h]
  · simp [saveStudentProfile, h, h']

/-- Witness for C4 at a concrete profile and two states that differ only in
the stale content of the profile file. -/
theorem profile_saved_wholesale_witness :
    (initTracker none [] emptyTemp).student_profile
      = (none : Option StudentProfileJson).map profileFromJson ∧
    (saveStudentProfile stSample).profile_file = some (profileToJson profileSample) ∧
    (saveStudentProfile stSample).profile_file
      = (saveStudentProfile stSampleStale).profile_file ∧
    profileFromJson (profileToJson profileSample) = profileSample :=
  profile_saved_wholesale none [] emptyTemp profileSample stSample stSampleStale rfl rfl

/-- **C3.** `end_current_session` with an active session appends the ended
session (end time set) as the last entry of the sessions log, keeps the
log a suffix of the old log plus the new entry, and caps it at the 50 most
recent entries. -/
theorem end_session_caps_log (st : TrackerState) (s : LearningSession) (now : Nat)
    (h : st.current_session = some s) :
    (endCurrentSession now st).sessions_file
      = (st.sessions_file ++ [sessionToJson { s with end_time := some now }]).drop
          (st.sessions_file.length + 1 - 50) ∧
    (endCurrentSession now st).sessions_file.length
      = min (st.sessions_file.length + 1) 50 ∧
    (endCurrentSession now st).sessions_file.getLast?
      = some (sessionToJson { s with end_time := some now }) ∧
    (endCurrentSession now st).sessions_file <:+
      (st.sessions_file ++ [sessionToJson { s with end_time := some now }]) := by
  have E : (endCurrentSession now st).sessions_file
      = (st.sessions_file ++ [sessionToJson { s with end_time := some now }]).drop
          (st.sessions_file.length + 1 - 50) := by
    rcases hp : st.student_profile with _ | p <;>
      simp [endCurrentSession, h, hp, saveSessionData, saveStudentProfile]
  refine ⟨E, ?_, ?_, ?_⟩
  · rw [E, List.length_drop]
    simp only [List.length_append, List.length_cons, List.length_nil]
    omega
  · rw [E, getLast?_drop_of_lt, List.getLast?_concat]
    simp only [List.length_append, List.length_cons, List.length_nil]
    omega
  · rw [E]
    exact List.drop_suffix _ _

/-- Witness for C3: ending the sample session at time 100. -/
theorem end_session_caps_log_witness :
    (endCurrentSession 100 stSessionSample).sessions_file
      = (stSessionSample.sessions_file ++
          [sessionToJson { sessionSample with end_time := some 100 }]).drop
          (stSessionSample.sessions_file.length + 1 - 50) ∧
    (endCurrentSession 100 stSessionSample).sessions_file.length
      = min (stSessionSample.sessions_file.length + 1) 50 ∧
    (endCurrentSession 100 stSessionSample).sessions_file.getLast?
      = some (sessionToJson { sessionSample with end_time := some 100 }) ∧
    (endCurrentSession 100 stSessionSample).sessions_file <:+
      (stSessionSample.sessions_file ++
        [sessionToJson { sessionSample with end_time := some 100 }]) :=
  end_session_caps_log stSessionSample sessionSample 100 rfl

/-- **C5.** While a session is active, `log_answer_result(topic, is_correct)`
changes exactly one of the topic's two counters — `correct_answers` goes up
by 1 on a correct answer, `incorrect_answers` by 1 otherwise — and leaves
the progress record of every other topic unchanged. -/
theorem log_answer_result_frame (st : TrackerState) (topic : String) (c : Bool) (now : Nat)
    (h : st.current_session.isSome = true) :
    topicCorrect (logAnswerResult topic c now st) topic
      = topicCorrect st topic + (if c then 1 else 0) ∧
    topicIncorrect (logAnswerResult topic c now st) topic
      = topicIncorrect st topic + (if c then 0 else 1) ∧
    ∀ other : String, other ≠ topic →
      observeTopic (logAnswerResult topic c now st) other = observeTopic st other := by
  obtain ⟨s, hs⟩ := Option.isSome_iff_exists.mp h
  have hp := logAnswerResult_profile topic c now st s hs
  refine ⟨?_, ?_, ?_⟩
  · simp only [topicCorrect, observeTopic, hp, applyAnswerProfile_topics,
      lookupKey_insertKey_self]
    rcases hsp : st.student_profile with _ | p
    · simp only [hsp, defaultProfile, lookupKey]
      cases c <;> simp [freshTopicProgress]
    · simp only [hsp]
      rcases hlk : lookupKey p.topics topic with _ | tp
      · simp only [hlk, Option.getD_none]
        cases c <;> simp [freshTopicProgress]
      · simp only [hlk, Option.getD_some]
        cases c <;> simp
  · simp only [topicIncorrect, observeTopic, hp, applyAnswerProfile_topics,
      lookupKey_insertKey_self]
    rcases hsp : st.student_profile with _ | p
    · simp only [hsp, defaultProfile, lookupKey]
      cases c <;> simp [freshTopicProgress]
    · simp only [hsp]
      rcases hlk : lookupKey p.topics topic with _ | tp
      · simp only [hlk, Option.getD_none]
        cases c <;> simp [freshTopicProgress]
      · simp only [hlk, Option.getD_some]
        cases c <;> simp
  · intro other hne
    simp only [observeTopic, hp, applyAnswerProfile_topics,
      lookupKey_insertKey_ne _ _ _ _ hne]
    rcases hsp : st.student_profile with _ | p <;>
      simp [hsp, defaultProfile, lookupKey]

/-- Witness for C5: one correct `"math"` answer during the sample session,
with the `"reading"` topic untouched. -/
theorem log_answer_result_frame_witness :
    topicCorrect (logAnswerResult "math" true 7 stSessionSample) "math"
      = topicCorrect stSessionSample "math" + 1 ∧
    topicIncorrect (logAnswerResult "math" true 7 stSessionSample) "math"
      = topicIncorrect stSessionSample "math" ∧
    observeTopic (logAnswerResult "math" true 7 stSessionSample) "reading"
      = observeTopic stSessionSample "reading" := by
  obtain ⟨h1, h2, h3⟩ := log_answer_result_frame stSessionSample "math" true 7 rfl
  exact ⟨by simpa using h1, by simpa using h2, h3 "reading" (by decide)⟩

/-- **C10.** Starting from a freshly created default student profile, after
any sequence of `log_answer_result` calls no topic is simultaneously in the
profile's `strengths` and `areas_for_improvement` lists: each addition to
one list removes the topic from the other. -/
theorem strengths_areas_disjoint (calls : List (String × Bool × Nat)) (x : String)
    (hx : x ∈ strengthsOf (calls.foldl answerCall freshStudentTracker)) :
    x ∉ areasOf (calls.foldl answerCall freshStudentTracker) := by
  have hinv : ListsInvState freshStudentTracker := by
    intro q hq
    have hq' : q = defaultProfile 0 := by
      simpa [freshStudentTracker, createDefaultProfileState, startNewSession,
        initTracker] using hq.symm
    subst hq'
    exact ⟨List.nodup_nil, List.nodup_nil, by simp [defaultProfile]⟩
  have hinv' := listsInvState_foldl calls freshStudentTracker hinv
  rcases hp : (calls.foldl answerCall freshStudentTracker).student_profile with _ | p
  · simp [strengthsOf, hp] at hx
  · have hip := hinv' p hp
    simp only [strengthsOf, hp] at hx
    simp only [areasOf, hp]
    exact hip.2.2 x hx

/-- Witness for C10: three correct `"math"` answers put `"math"` into
`strengths`, and the theorem rules it out of `areas_for_improvement`. -/
theorem strengths_areas_disjoint_witness :
    "math" ∉ areasOf (callsSample.foldl answerCall freshStudentTracker) :=
  strengths_areas_disjoint callsSample "math" (by
    norm_num [callsSample, answerCall, freshStudentTracker, createDefaultProfileState,
      startNewSession, initTracker, emptyTemp, logAnswerResult, saveTempProgress,
      saveStudentProfile, applyAnswerProfile, defaultProfile, freshTopicProgress,
      lookupKey, insertKey, strengthsOf, profileToJson, topicToJson, IsoString.ofTime])

/-- **C7.** On a list of at least two extracted numbers that are all
integers, the math handlers compute exact integer arithmetic: addition
returns success with the sum of all the numbers, subtraction the first
number minus every subsequent one, multiplication the product of all the
numbers, and each `final_answer.correct_value` is the decimal string of
that integer result. -/
theorem int_math_handlers_exact (z0 : ℤ) (zs : List ℤ) (g text : String) (now : Nat)
    (st : TrackerState) (h : zs ≠ []) :
    ((handleAddition ((z0 :: zs).map (fun (z : ℤ) => (z : ℚ))) g text now st).1.success = true ∧
      (handleAddition ((z0 :: zs).map (fun (z : ℤ) => (z : ℚ))) g text now st).1.final_answer.map
        FinalAnswer.correct_value = some (toString ((z0 :: zs).sum))) ∧
    ((handleSubtraction ((z0 :: zs).map (fun (z : ℤ) => (z : ℚ))) g text now st).1.success = true ∧
      (handleSubtraction ((z0 :: zs).map (fun (z : ℤ) => (z : ℚ))) g text now st).1.final_answer.map
        FinalAnswer.correct_value = some (toString (z0 - zs.sum))) ∧
    ((handleMultiplication ((z0 :: zs).map (fun (z : ℤ) => (z : ℚ))) g text now st).1.success = true ∧
      (handleMultiplication ((z0 :: zs).map (fun (z : ℤ) => (z : ℚ))) g text now st).1.final_answer.map
        FinalAnswer.correct_value = some (toString ((z0 :: zs).prod))) := by
  have hzs : 0 < zs.length := List.length_pos.mpr h
  have hlen : ¬ (((z0 :: zs).map (fun (z : ℤ) => (z : ℚ))).length < 2) := by
    rw [List.length_map, List.length_cons]; omega
  refine ⟨⟨?_, ?_⟩, ⟨?_, ?_⟩, ⟨?_, ?_⟩⟩
  · simp only [handleAddition]
    rw [if_neg hlen]
  · simp only [handleAddition]
    rw [if_neg hlen]
    show some (pyIntStr (((z0 :: zs).map (fun (z : ℤ) => (z : ℚ))).sum))
      = some (toString ((z0 :: zs).sum))
    rw [sum_map_ratCast, pyIntStr_intCast]
  · simp only [handleSubtraction]
    rw [if_neg hlen]
  · simp only [handleSubtraction]
    rw [if_neg hlen]
    show some (pyIntStr ((zs.map (fun (z : ℤ) => (z : ℚ))).foldl (fun x y => x - y) ((z0 : ℚ))))
      = some (toString (z0 - zs.sum))
    rw [foldl_sub_eq, sum_map_ratCast,
      show (z0 : ℚ) - (zs.sum : ℚ) = ((z0 - zs.sum : ℤ) : ℚ) by push_cast; ring,
      pyIntStr_intCast]
  · simp only [handleMultiplication]
    rw [if_neg hlen]
  · simp only [handleMultiplication]
    rw [if_neg hlen]
    show some (pyIntStr (((z0 :: zs).map (fun (z : ℤ) => (z : ℚ))).foldl (fun x y => x * y) 1))
      = some (toString ((z0 :: zs).prod))
    rw [← List.prod_eq_foldl, prod_map_ratCast, pyIntStr_intCast]

/-- Witness for C7 on the integer list `[3, 4, 2]`. -/
theorem int_math_handlers_exact_witness :
    (handleAddition [(3 : ℚ), 4, 2] "third_grade" "what is 3 plus 4 plus 2" 0
        stSample).1.final_answer.map FinalAnswer.correct_value = some "9" ∧
    (handleSubtraction [(3 : ℚ), 4, 2] "third_grade" "what is 3 plus 4 plus 2" 0
        stSample).1.final_answer.map FinalAnswer.correct_value = some "-3" ∧
    (handleMultiplication [(3 : ℚ), 4, 2] "third_grade" "what is 3 plus 4 plus 2" 0
        stSample).1.final_answer.map FinalAnswer.correct_value = some "24" := by
  obtain ⟨⟨-, ha⟩, ⟨-, hs⟩, ⟨-, hm⟩⟩ :=
    int_math_handlers_exact 3 [4, 2] "third_grade" "what is 3 plus 4 plus 2" 0
      stSample (by simp)
  refine ⟨?_, ?_, ?_⟩
  · simpa using ha
  · simpa using hs
  · simpa using hm

/-- **C8.** A division command with at least two numbers and a zero among
the divisors fails cleanly: `success` false with the divide-by-zero
message, an empty scene and an empty `final_answer`, and no exception; the
division loop itself is unreachable with a zero divisor, so the handler
never raises at all. -/
theorem division_by_zero_guard (numbers : List ℚ) (g text : String) (now : Nat)
    (st : TrackerState) (h2 : 2 ≤ numbers.length) (hz : ∃ n ∈ numbers.tail, n = 0) :
    handleDivision numbers g text now st
      = .ok ({ success := false,
               response := "I can\x27t divide by zero. That\x27s undefined in mathematics.",
               scene := [], final_answer := none }, st) ∧
    ∀ (ms : List ℚ) (e : String), handleDivision ms g text now st ≠ .error e := by
  constructor
  · have hlen : ¬ numbers.length < 2 := by omega
    have hany : numbers.tail.any (fun n => n = 0) = true := by
      obtain ⟨n, hn, hn0⟩ := hz
      exact List.any_eq_true.mpr ⟨n, hn, by simp [hn0]⟩
    simp [handleDivision, hlen, hany, failResult]
  · intro ms e
    unfold handleDivision
    split_ifs with hl hz0
    · simp
    · simp
    · have hnz : ∀ n ∈ ms.tail, n ≠ 0 := by
        intro n hn hn0
        exact hz0 (List.any_eq_true.mpr ⟨n, hn, by simp [hn0]⟩)
      obtain ⟨r, hr⟩ := divFold_some ms.tail (ms.headD 0) hnz
      rw [hr]
      simp

/-- Witness for C8 on `5 ÷ 0`. -/
theorem division_by_zero_guard_witness :
    handleDivision [(5 : ℚ), 0] "third_grade" "divide 5 by 0" 0 stSample
      = .ok ({ success := false,
               response := "I can\x27t divide by zero. That\x27s undefined in mathematics.",
               scene := [], final_answer := none }, stSample) ∧
    ∀ (ms : List ℚ) (e : String),
      handleDivision ms "third_grade" "divide 5 by 0" 0 stSample ≠ .error e :=
  division_by_zero_guard [5, 0] "third_grade" "divide 5 by 0" 0 stSample
    (by simp) ⟨0, by simp, rfl⟩

/-- **C9.** Each math handler given fewer than two numbers returns
`success` false with an empty scene and an empty `final_answer`, and
leaves the learning-tracker state untouched. -/
theorem handlers_need_two_numbers (numbers : List ℚ) (g text : String) (now : Nat)
    (st : TrackerState) (h : numbers.length < 2) :
    handleAddition numbers g text now st
      = ({ success := false, response := "I need at least two numbers to add together.",
           scene := [], final_answer := none }, st) ∧
    handleSubtraction numbers g text now st
      = ({ success := false, response := "I need at least two numbers for subtraction.",
           scene := [], final_answer := none }, st) ∧
    handleMultiplication numbers g text now st
      = ({ success := false, response := "I need at least two numbers to multiply.",
           scene := [], final_answer := none }, st) ∧
    handleDivision numbers g text now st
      = .ok ({ success := false, response := "I need at least two numbers for division.",
               scene := [], final_answer := none }, st) := by
  refine ⟨?_, ?_, ?_, ?_⟩ <;>
    simp [handleAddition, handleSubtraction, handleMultiplication, handleDivision,
      failResult, h]

/-- Witness for C9 on the one-element list `[3]`. -/
theorem handlers_need_two_numbers_witness :
    handleAddition [(3 : ℚ)] "third_grade" "add 3" 0 stSample
      = ({ success := false, response := "I need at least two numbers to add together.",
           scene := [], final_answer := none }, stSample) ∧
    handleSubtraction [(3 : ℚ)] "third_grade" "add 3" 0 stSample
      = ({ success := false, response := "I need at least two numbers for subtraction.",
           scene := [], final_answer := none }, stSample) ∧
    handleMultiplication [(3 : ℚ)] "third_grade" "add 3" 0 stSample
      = ({ success := false, response := "I need at least two numbers to multiply.",
           scene := [], final_answer := none }, stSample) ∧
    handleDivision [(3 : ℚ)] "third_grade" "add 3" 0 stSample
      = .ok ({ success := false, response := "I need at least two numbers for division.",
               scene := [], final_answer := none }, stSample) :=
  handlers_need_two_numbers [3] "third_grade" "add 3" 0 stSample (by simp)

end AITutor
